import Mathlib

/-!
Verification of the time-parameterized historical map application.

The development shallowly embeds the application's core TypeScript modules:

* `services/geminiService.ts` — the year-keyed snapshot cache and fetch
  orchestrator (`fetchHistoricalContext`), with its fallback behaviour;
* `components/Timeline.tsx` — the year commit path (`commitInput`);
* `components/Map.tsx` — the region-code → regime index
  (`countryColorMap`) and click hit-testing;
* `components/VideoGenerator.tsx` — the cooperative playback loop
  (`handlePlay`) and the screen-recording lifecycle;
* `App.tsx` — the `loadData` path that commits a year and clears selection.

Asynchronous effects are modelled by explicit state passing: the external
generative service is an `Option HistoricalData` parameter (`some` = a
successfully parsed response, `none` = any failure: network error, empty
text, or unparseable JSON — all of which land in the same `catch` branch of
the source), the cache is a function `Int → Option HistoricalData`, and the
playback loop's cooperative cancellation flag is a control record telling,
for each visited year, whether a stop request was observed at each of the
two suspension-point checks of that iteration.
-/

/-- `types.ts`: `HistoricalRegime` — one political entity of a snapshot. -/
structure HistoricalRegime where
  name : String
  color : String
  isoCodes : List String
  events : List String
deriving DecidableEq

/-- `types.ts`: `HistoricalData` — the snapshot for one year. -/
structure HistoricalData where
  year : Int
  summary : String
  regimes : List HistoricalRegime
deriving DecidableEq

/-- `types.ts`: `GeoJsonFeature`, reduced to the two fields the click and
colour paths read: `id` (the ISO code) and `properties.name`. -/
structure GeoJsonFeature where
  id : String
  name : String
deriving DecidableEq

/-- The session cache `const cache = new Map<number, HistoricalData>()` of
`geminiService.ts`, modelled as a partial map. -/
def Cache : Type := Int → Option HistoricalData

/-- JS `cache.set(year, data)`. -/
def cacheSet (c : Cache) (y : Int) (d : HistoricalData) : Cache :=
  fun k => if k = y then some d else c k

/-- The empty cache at session start. -/
def emptyCache : Cache := fun _ => none

/-- The fallback snapshot built in the `catch` branch of
`fetchHistoricalContext` (`geminiService.ts` lines 83–87). -/
def fallbackData (year : Int) : HistoricalData :=
  { year := year
    summary := "该时期数据暂不可用，请尝试其他年份。"
    regimes := [] }

/-- Result of one `fetchHistoricalContext` call: the returned snapshot, the
cache after the call, and whether the external service was invoked. -/
structure FetchResult where
  data : HistoricalData
  newCache : Cache
  externalCalled : Bool

/-- `geminiService.ts` `fetchHistoricalContext`: if the year is cached,
return the cached snapshot without an external call; otherwise call the
external service (`resp` is its outcome: `some parsed` for a successful,
parsed response, `none` for any failure). On success the returned `year`
field is overridden with the requested year and the result is cached; on
failure the uncached fallback snapshot is returned. The function is total:
the source catches every error, so nothing is raised to the caller. -/
def fetchHistoricalContext (year : Int) (cache : Cache)
    (resp : Option HistoricalData) : FetchResult :=
  match cache year with
  | some cached => ⟨cached, cache, false⟩
  | none =>
    match resp with
    | some parsed =>
      let d : HistoricalData := { parsed with year := year }
      ⟨d, cacheSet cache year d, true⟩
    | none => ⟨fallbackData year, cache, true⟩

/-- `Timeline.tsx` `commitInput`: clamp the committed year to `[minV, maxV]`
and skip year 0 (normalized to 1). `parseInt` NaN handling is outside the
integer model (the source guards `isNaN` before calling on parsed input). -/
def commitInput (minV maxV val : Int) : Int :=
  let f1 := if val < minV then minV else val
  let f2 := if f1 > maxV then maxV else f1
  if f2 = 0 then 1 else f2

/-- Claim C1 — warm-cache memoization of `fetchHistoricalContext`: if `year`
is cached, the call returns the cached snapshot with the cache unchanged and
no external invocation; two successive calls with a warm cache return the
identical snapshot and never invoke the service; and after any successful
(cache-filling) call, a further call for that year does not invoke the
service, so the service is invoked at most once for that year absent
failures. -/
theorem c1_cache_memoization (year : Int) (cache : Cache) (d : HistoricalData)
    (resp resp2 : Option HistoricalData) (h : cache year = some d) :
    fetchHistoricalContext year cache resp = ⟨d, cache, false⟩ ∧
    ((fetchHistoricalContext year
        (fetchHistoricalContext year cache resp).newCache resp2).data
      = (fetchHistoricalContext year cache resp).data ∧
      (fetchHistoricalContext year cache resp).externalCalled = false ∧
      (fetchHistoricalContext year
        (fetchHistoricalContext year cache resp).newCache resp2).externalCalled
        = false) ∧
    (∀ c' : Cache, ∀ parsed : HistoricalData, c' year = none →
      (fetchHistoricalContext year
        (fetchHistoricalContext year c' (some parsed)).newCache
        resp2).externalCalled = false) := by
  refine ⟨?_, ?_, ?_⟩
  · simp [fetchHistoricalContext, h]
  · simp [fetchHistoricalContext, h]
  · intro c' parsed h'
    simp [fetchHistoricalContext, h', cacheSet]

/-- Witness for C1 at a concrete warm cache for year 1000. -/
theorem c1_cache_memoization_witness :
    (cacheSet emptyCache 1000
        { year := 1000, summary := "s", regimes := [] }) 1000
      = some { year := 1000, summary := "s", regimes := [] } ∧
    fetchHistoricalContext 1000
        (cacheSet emptyCache 1000 { year := 1000, summary := "s", regimes := [] })
        none
      = ⟨{ year := 1000, summary := "s", regimes := [] },
         cacheSet emptyCache 1000 { year := 1000, summary := "s", regimes := [] },
         false⟩ :=
  ⟨by decide,
   (c1_cache_memoization 1000
      (cacheSet emptyCache 1000 { year := 1000, summary := "s", regimes := [] })
      { year := 1000, summary := "s", regimes := [] }
      none none (by decide)).1⟩

/-- Claim C2 — fallback on fetch failure: with `year` uncached and the
external call failing, `fetchHistoricalContext` (which is total — no error
reaches the caller) returns a snapshot with the requested year, a non-empty
"unavailable" summary and no regimes; the cache is left unchanged (the
fallback is not stored), so a subsequent call re-invokes the service, and a
subsequent success is stored in the cache. -/
theorem c2_fallback_not_cached (year : Int) (cache : Cache)
    (parsed : HistoricalData) (h : cache year = none) :
    (fetchHistoricalContext year cache none).data.year = year ∧
    (fetchHistoricalContext year cache none).data.summary ≠ "" ∧
    (fetchHistoricalContext year cache none).data.regimes = [] ∧
    (fetchHistoricalContext year cache none).newCache = cache ∧
    (fetchHistoricalContext year cache none).externalCalled = true ∧
    ((fetchHistoricalContext year
        (fetchHistoricalContext year cache none).newCache
        (some parsed)).externalCalled = true ∧
      (fetchHistoricalContext year
        (fetchHistoricalContext year cache none).newCache
        (some parsed)).newCache year
        = some { parsed with year := year }) := by
  refine ⟨?_, ?_, ?_, ?_, ?_, ?_, ?_⟩ <;>
    simp [fetchHistoricalContext, h, fallbackData, cacheSet]

/-- Witness for C2 at the empty cache and year 1000. -/
theorem c2_fallback_not_cached_witness :
    emptyCache 1000 = none ∧
    (fetchHistoricalContext 1000 emptyCache none).data.regimes = [] :=
  ⟨by decide,
   (c2_fallback_not_cached 1000 emptyCache
      { year := 5, summary := "s", regimes := [] } (by decide)).2.2.1⟩

/-- Cooperative cancellation control for the playback loop of
`VideoGenerator.tsx` `handlePlay`: for the iteration that visits a given
year, whether the `isPlayingRef.current` flag is observed `false` at the
check after `await onYearChange(...)` (post-fetch) and at the check after
the 2000 ms pacing delay (post-delay). These are the only two suspension
points of an iteration; no other await separates them from the loop head. -/
structure LoopCtl where
  stopAfterFetch : Int → Bool
  stopAfterDelay : Int → Bool

/-- A control under which no stop is ever requested. -/
def noStopCtl : LoopCtl := ⟨fun _ => false, fun _ => false⟩

/-- The `while (isPlayingRef.current && yearToLoad <= endYear)` loop of
`handlePlay` (`VideoGenerator.tsx` lines 114–127), returning the list of
years passed to `onYearChange` (one observer notification each), in order.
`fuel` bounds the number of iterations; every theorem below either holds for
all fuel or assumes fuel large enough to cover the range. -/
def playLoop (ctl : LoopCtl) (endYear step : Int) : Nat → Int → List Int
  | 0, _ => []
  | fuel + 1, year =>
    if year ≤ endYear then
      year ::
        (if ctl.stopAfterFetch year then []
         else if ctl.stopAfterDelay year then []
         else playLoop ctl endYear step fuel (year + step))
    else []

/-- Outcome of one `handlePlay` invocation: the notified years and the final
control state (`isPlaying` React state, `isPlayingRef` flag, and whether the
range-error alert fired). -/
structure PlayResult where
  notifications : List Int
  alerted : Bool
  isPlaying : Bool
  isPlayingRef : Bool
deriving DecidableEq

/-- `VideoGenerator.tsx` `handlePlay`: if already playing, toggle to a stop
(clear both flags, no loop, no alert); else if `startYear > endYear`, alert
and reset the flags without notifying; otherwise run the loop. The `finally`
block clears both flags on every exit, so the final state is always idle. -/
def handlePlay (isPlayingRefBefore : Bool) (startYear endYear step : Int)
    (ctl : LoopCtl) (fuel : Nat) : PlayResult :=
  if isPlayingRefBefore then
    { notifications := [], alerted := false, isPlaying := false, isPlayingRef := false }
  else if startYear > endYear then
    { notifications := [], alerted := true, isPlaying := false, isPlayingRef := false }
  else
    { notifications := playLoop ctl endYear step fuel startYear
      alerted := false, isPlaying := false, isPlayingRef := false }

/-- A loop started past the end year notifies nothing. -/
theorem playLoop_gt (ctl : LoopCtl) (endYear step : Int) (fuel : Nat)
    (year : Int) (h : endYear < year) :
    playLoop ctl endYear step fuel year = [] := by
  cases fuel with
  | zero => rfl
  | succ n => simp [playLoop, not_le.mpr h]

/-- Every notified year is at least the year the loop started from. -/
theorem playLoop_mem_ge (ctl : LoopCtl) (endYear step : Int)
    (hstep : 0 < step) :
    ∀ fuel : Nat, ∀ year z : Int,
      z ∈ playLoop ctl endYear step fuel year → year ≤ z := by
  intro fuel
  induction fuel with
  | zero => intro year z hz; simp [playLoop] at hz
  | succ n ih =>
    intro year z hz
    by_cases hy : year ≤ endYear
    · simp only [playLoop, if_pos hy, List.mem_cons] at hz
      rcases hz with rfl | hz
      · exact le_refl z
      · rcases hb : ctl.stopAfterFetch year with _ | _ <;> rw [hb] at hz
        · rcases hc : ctl.stopAfterDelay year with _ | _ <;> rw [hc] at hz
          · have := ih (year + step) z (by simpa using hz)
            omega
          · simp at hz
        · simp at hz
    · rw [playLoop_gt ctl endYear step _ year (by omega)] at hz
      simp at hz

/-- With enough fuel to cover the whole range, extra fuel does not change
the loop's behaviour. -/
theorem playLoop_fuel_add (ctl : LoopCtl) (endYear step : Int)
    (hstep : 0 < step) :
    ∀ f g : Nat, ∀ year : Int, endYear < year + step * (f : Int) →
      playLoop ctl endYear step (f + g) year = playLoop ctl endYear step f year := by
  intro f
  induction f with
  | zero =>
    intro g year h
    simp only [Nat.cast_zero, mul_zero, add_zero] at h
    rw [playLoop_gt ctl endYear step _ year h, playLoop_gt ctl endYear step _ year h]
  | succ n ih =>
    intro g year h
    by_cases hy : year ≤ endYear
    · have hrec : endYear < (year + step) + step * (n : Int) := by
        push_cast at h ⊢
        nlinarith [h]
      rw [show n + 1 + g = (n + g) + 1 from by omega]
      simp only [playLoop, if_pos hy]
      rw [ih g (year + step) hrec]
    · rw [playLoop_gt ctl endYear step _ year (by omega),
        playLoop_gt ctl endYear step _ year (by omega)]

/-- Claim C3 — playback ordering: with fuel covering the range,
`start(1000, 1200, 50)` (not already playing, no stop requested) notifies
exactly `[1000, 1050, 1100, 1150, 1200]` in order — once per visited year —
and ends idle (`isPlaying = false`, `isPlayingRef = false`) with no alert;
and any `start` with `startYear > endYear` alerts and notifies nothing,
leaving the flags cleared. -/
theorem c3_playback_ordering (fuel : Nat) (hfuel : 5 ≤ fuel) :
    handlePlay false 1000 1200 50 noStopCtl fuel
      = { notifications := [1000, 1050, 1100, 1150, 1200]
          alerted := false, isPlaying := false, isPlayingRef := false } ∧
    (∀ (s e st : Int) (ctl : LoopCtl) (f : Nat), e < s →
      handlePlay false s e st ctl f
        = { notifications := [], alerted := true
            isPlaying := false, isPlayingRef := false }) := by
  constructor
  · obtain ⟨g, rfl⟩ : ∃ g, fuel = 5 + g := ⟨fuel - 5, by omega⟩
    have hcover : (1200 : Int) < 1000 + 50 * ((5 : Nat) : Int) := by norm_num
    simp only [handlePlay, if_neg (by norm_num : ¬(false = true)),
      if_neg (by norm_num : ¬((1000 : Int) > 1200))]
    rw [playLoop_fuel_add noStopCtl 1200 50 (by norm_num) 5 g 1000 hcover]
    decide
  · intro s e st ctl f hse
    simp [handlePlay, hse]

/-- Witness for C3 at fuel 5. -/
theorem c3_playback_ordering_witness :
    (5 ≤ 5 ∧
      handlePlay false 1000 1200 50 noStopCtl 5
        = { notifications := [1000, 1050, 1100, 1150, 1200]
            alerted := false, isPlaying := false, isPlayingRef := false }) ∧
    handlePlay false 1200 1000 50 noStopCtl 5
      = { notifications := [], alerted := true
          isPlaying := false, isPlayingRef := false } :=
  ⟨⟨by decide, (c3_playback_ordering 5 (by decide)).1⟩,
   (c3_playback_ordering 5 (by decide)).2 1200 1000 50 noStopCtl 5 (by decide)⟩

/-- If a stop request is observed at either of the two checkpoints of the
iteration visiting year `Y`, then every notified year is at most `Y` — no
later year's iteration runs. -/
theorem playLoop_stop_cut (ctl : LoopCtl) (endYear step : Int)
    (hstep : 0 < step) (Y : Int)
    (hstop : ctl.stopAfterFetch Y = true ∨ ctl.stopAfterDelay Y = true) :
    ∀ fuel : Nat, ∀ year : Int, Y ∈ playLoop ctl endYear step fuel year →
      ∀ z ∈ playLoop ctl endYear step fuel year, z ≤ Y := by
  intro fuel
  induction fuel with
  | zero => intro year hY; simp [playLoop] at hY
  | succ n ih =>
    intro year hY z hz
    by_cases hy : year ≤ endYear
    · simp only [playLoop, if_pos hy, List.mem_cons] at hY hz
      rcases hY with rfl | hY
      · -- the stop flags fire at `year = Y`: the tail is empty
        have htail :
            (if ctl.stopAfterFetch Y then ([] : List Int)
             else if ctl.stopAfterDelay Y then []
             else playLoop ctl endYear step n (Y + step)) = [] := by
          rcases hstop with hs | hs
          · rw [hs]; rfl
          · rcases hb : ctl.stopAfterFetch Y with _ | _
            · rw [hs]; rfl
            · rfl
        rw [htail] at hz
        rcases hz with rfl | hz
        · exact le_refl z
        · simp at hz
      · -- `Y` lies in the tail, so both flags at `year` are off
        rcases hb : ctl.stopAfterFetch year with _ | _ <;> rw [hb] at hY hz
        · rcases hc : ctl.stopAfterDelay year with _ | _ <;> rw [hc] at hY hz
          · simp only [if_neg (by simp : ¬(false = true))] at hY hz
            have hYtail := hY
            rcases hz with rfl | hz
            · have := playLoop_mem_ge ctl endYear step hstep n (z + step) Y hYtail
              omega
            · exact ih (year + step) hYtail z hz
          · simp at hY
        · simp at hY
    · rw [playLoop_gt ctl endYear step _ year (by omega)] at hY
      simp at hY

/-- Claim C4 — cooperative cancellation: cancellation is observed only at
the two per-iteration checkpoints modelled in `LoopCtl` (post-fetch and
post-delay). If a stop request is observed at either checkpoint of the
iteration that notified year `Y`, then no notification for `Y + step` or
any later year ever fires in that `handlePlay` run. -/
theorem c4_cancellation_cut (s e st Y : Int) (ctl : LoopCtl) (fuel : Nat)
    (hstep : 0 < st)
    (hstop : ctl.stopAfterFetch Y = true ∨ ctl.stopAfterDelay Y = true)
    (hY : Y ∈ (handlePlay false s e st ctl fuel).notifications) :
    (∀ z ∈ (handlePlay false s e st ctl fuel).notifications, z ≤ Y) ∧
    Y + st ∉ (handlePlay false s e st ctl fuel).notifications := by
  by_cases hse : s > e
  · simp [handlePlay, hse] at hY
  · simp only [handlePlay, if_neg (by simp : ¬(false = true)), if_neg hse] at hY ⊢
    have hcut := playLoop_stop_cut ctl e st hstep Y hstop fuel s hY
    refine ⟨hcut, fun hmem => ?_⟩
    have := hcut (Y + st) hmem
    omega

/-- Witness for C4: a stop requested during the pacing delay after the
notification for 1050 cuts the run `start(1000, 1200, 50)` to
`[1000, 1050]` — in particular 1100 is never notified. -/
theorem c4_cancellation_cut_witness :
    (0 : Int) < 50 ∧
    ((LoopCtl.mk (fun _ => false) (fun y => y == 1050)).stopAfterFetch 1050 = true ∨
      (LoopCtl.mk (fun _ => false) (fun y => y == 1050)).stopAfterDelay 1050 = true) ∧
    (1050 : Int) ∈ (handlePlay false 1000 1200 50
      (LoopCtl.mk (fun _ => false) (fun y => y == 1050)) 10).notifications ∧
    (1100 : Int) ∉ (handlePlay false 1000 1200 50
      (LoopCtl.mk (fun _ => false) (fun y => y == 1050)) 10).notifications :=
  ⟨by decide, by decide, by decide,
   (c4_cancellation_cut 1000 1200 50 1050
      (LoopCtl.mk (fun _ => false) (fun y => y == 1050)) 10
      (by decide) (by decide) (by decide)).2⟩

/-- Claim C8 — start-while-running toggles to stop: `handlePlay` invoked
while `isPlayingRef` is set returns immediately, clearing both flags,
notifying no year and running no second loop, so at most one playback
session is ever live. -/
theorem c8_start_while_running_toggles (s e st : Int) (ctl : LoopCtl)
    (fuel : Nat) :
    handlePlay true s e st ctl fuel
      = { notifications := [], alerted := false
          isPlaying := false, isPlayingRef := false } := by
  rfl

/-- Counterexample to claim C5 as stated: the playback loop's per-iteration
commit performs no year-0 normalization. `start(0, 0, 50)` commits year `0`
itself to the snapshot pipeline (`onYearChange(0)`), not `1`. -/
theorem c5_zero_commit_counterexample :
    (handlePlay false 0 0 50 noStopCtl 5).notifications = [0] ∧
    (0 : Int) ∈ (handlePlay false 0 0 50 noStopCtl 5).notifications ∧
    (handlePlay false 0 0 50 noStopCtl 5).notifications ≠ [1] := by
  refine ⟨by decide, by decide, by decide⟩

/-- Claim C5 (amended) — year-0 normalization holds on the input/slider
commit path only: `commitInput` maps a committed `0` to `1` whenever the
bounds allow 0, and never outputs `0` for any input; but the playback loop's
per-iteration commit is not normalized and passes year `0` through
unchanged. -/
theorem c5_commit_normalization (minV maxV : Int)
    (hmin : minV ≤ 0) (hmax : 0 ≤ maxV) :
    commitInput minV maxV 0 = 1 ∧
    (∀ a b v : Int, commitInput a b v ≠ 0) ∧
    (handlePlay false 0 0 50 noStopCtl 5).notifications = [0] := by
  refine ⟨?_, ?_, by decide⟩
  · simp only [commitInput]
    rw [if_neg (by omega : ¬(0 : Int) < minV)]
    by_cases h : (0 : Int) > maxV
    · omega
    · rw [if_neg h]; rfl
  · intro a b v
    simp only [commitInput]
    by_cases h1 : v < a <;> by_cases h2 : v > b <;>
      simp only [h1, h2, if_true, if_false] <;> split <;> omega

/-- Witness for the amended C5 at the application's Timeline bounds
`[-2000, 2000]`. -/
theorem c5_commit_normalization_witness :
    ((-2000 : Int) ≤ 0 ∧ (0 : Int) ≤ 2000) ∧
    commitInput (-2000) 2000 0 = 1 :=
  ⟨⟨by decide, by decide⟩,
   (c5_commit_normalization (-2000) 2000 (by decide) (by decide)).1⟩

/-- One `regime.isoCodes.forEach(iso => map.set(iso, regime))` pass of
`Map.tsx` `countryColorMap`, over a partial map. -/
def setRegimeCodes (r : HistoricalRegime) (m : String → Option HistoricalRegime) :
    String → Option HistoricalRegime :=
  r.isoCodes.foldl (fun m iso => fun k => if k = iso then some r else m k) m

/-- The outer `historicalData.regimes.forEach(...)` of `countryColorMap`,
starting from a given map. -/
def buildColorMapFrom (m : String → Option HistoricalRegime)
    (rs : List HistoricalRegime) : String → Option HistoricalRegime :=
  rs.foldl (fun m r => setRegimeCodes r m) m

/-- `Map.tsx` `countryColorMap` (lines 40–50): the ISO-code → owning-regime
index derived from the current snapshot; empty when no snapshot is loaded. -/
def countryColorMap (h : Option HistoricalData) : String → Option HistoricalRegime :=
  match h with
  | none => fun _ => none
  | some data => buildColorMapFrom (fun _ => none) data.regimes

/-- `App.tsx` / `Map.tsx` `Selection`: the pair handed to `onRegimeClick`. -/
structure Selection where
  regime : Option HistoricalRegime
  areaName : Option String
deriving DecidableEq

/-- The click handler on a country path (`Map.tsx` lines 153–159):
`onRegimeClick(entry ? entry.regime : null, d.properties.name)` where
`entry = countryColorMap.get(d.id)`. -/
def onFeatureClick (h : Option HistoricalData) (f : GeoJsonFeature) : Selection :=
  { regime := countryColorMap h f.id, areaName := some f.name }

/-- The click handler on the svg background (`Map.tsx` lines 162–164):
`onRegimeClick(null, "Ocean")` — the deselect Selection, `"Ocean"` being the
source's background sentinel area name. -/
def backgroundClick : Selection :=
  { regime := none, areaName := some "Ocean" }

/-- Lookup through one regime's code pass: the regime if the key is one of
its codes, otherwise whatever the underlying map holds. -/
theorem setRegimeCodes_lookup (r : HistoricalRegime) (k : String) :
    ∀ codes : List String, ∀ m : String → Option HistoricalRegime,
      (codes.foldl (fun m iso => fun s => if s = iso then some r else m s) m) k
        = if k ∈ codes then some r else m k := by
  intro codes
  induction codes with
  | nil => intro m; simp
  | cons c tl ih =>
    intro m
    rw [List.foldl_cons, ih]
    by_cases hk : k ∈ tl
    · simp [hk]
    · by_cases hc : k = c <;> simp [hk, hc]

/-- Lookup through the whole build: the result of building from `rs` alone
if some regime of `rs` claims the key, else the initial map's entry. -/
theorem buildColorMapFrom_lookup (k : String) :
    ∀ rs : List HistoricalRegime, ∀ m : String → Option HistoricalRegime,
      buildColorMapFrom m rs k
        = match buildColorMapFrom (fun _ => none) rs k with
          | some r => some r
          | none => m k := by
  intro rs
  induction rs with
  | nil => intro m; simp [buildColorMapFrom]
  | cons r tl ih =>
    intro m
    show buildColorMapFrom (setRegimeCodes r m) tl k = _
    rw [ih (setRegimeCodes r m)]
    conv_rhs => rw [show buildColorMapFrom (fun _ => none) (r :: tl) k
      = buildColorMapFrom (setRegimeCodes r (fun _ => none)) tl k from rfl,
      ih (setRegimeCodes r (fun _ => none))]
    rcases hb : buildColorMapFrom (fun _ => none) tl k with _ | r'
    · simp only []
      rw [show setRegimeCodes r m k
        = if k ∈ r.isoCodes then some r else m k from setRegimeCodes_lookup r k _ m,
        show setRegimeCodes r (fun _ => none) k
        = if k ∈ r.isoCodes then some r else none from setRegimeCodes_lookup r k _ _]
      by_cases hk : k ∈ r.isoCodes <;> simp [hk]
    · simp only []

/-- Claim C9 — last-write-wins in the region index: splitting the snapshot's
regime list anywhere, a code claimed by the later segment is owned according
to the later segment; in particular with two regimes sharing a code the
second one owns it. -/
theorem c9_last_write_wins (y : Int) (s : String)
    (l1 l2 : List HistoricalRegime) (iso : String)
    (r1 r2 : HistoricalRegime) (h2 : iso ∈ r2.isoCodes) :
    (countryColorMap (some ⟨y, s, l1 ++ l2⟩) iso
      = match countryColorMap (some ⟨y, s, l2⟩) iso with
        | some r => some r
        | none => countryColorMap (some ⟨y, s, l1⟩) iso) ∧
    countryColorMap (some ⟨y, s, [r1, r2]⟩) iso = some r2 := by
  constructor
  · show buildColorMapFrom (fun _ => none) (l1 ++ l2) iso = _
    rw [buildColorMapFrom, List.foldl_append]
    rw [show List.foldl (fun m r => setRegimeCodes r m)
        (List.foldl (fun m r => setRegimeCodes r m) (fun _ => none) l1) l2
      = buildColorMapFrom (buildColorMapFrom (fun _ => none) l1) l2 from rfl]
    rw [buildColorMapFrom_lookup iso l2 (buildColorMapFrom (fun _ => none) l1)]
    rfl
  · show buildColorMapFrom (fun _ => none) [r1, r2] iso = some r2
    show setRegimeCodes r2 (setRegimeCodes r1 (fun _ => none)) iso = some r2
    rw [show setRegimeCodes r2 (setRegimeCodes r1 (fun _ => none)) iso
      = if iso ∈ r2.isoCodes then some r2
        else setRegimeCodes r1 (fun _ => none) iso
      from setRegimeCodes_lookup r2 iso _ _]
    simp [h2]

/-- Witness for C9: two concrete regimes both claiming `"FRA"`; the later
one owns it. -/
theorem c9_last_write_wins_witness :
    "FRA" ∈ (HistoricalRegime.mk "后者" "#222222" ["FRA"] []).isoCodes ∧
    countryColorMap
        (some ⟨1000, "s",
          [HistoricalRegime.mk "前者" "#111111" ["FRA"] [],
           HistoricalRegime.mk "后者" "#222222" ["FRA"] []]⟩) "FRA"
      = some (HistoricalRegime.mk "后者" "#222222" ["FRA"] []) :=
  ⟨by decide,
   (c9_last_write_wins 1000 "s" [] []
      "FRA" (HistoricalRegime.mk "前者" "#111111" ["FRA"] [])
      (HistoricalRegime.mk "后者" "#222222" ["FRA"] []) (by decide)).2⟩

/-- Claim C7 — hit-testing: clicking a feature whose ISO code is in the
current index selects the owning regime with the feature's display name;
clicking one absent from the index selects no regime but keeps the display
name; clicking the background emits the deselect Selection (no regime, the
background sentinel area name). -/
theorem c7_hit_testing (h : Option HistoricalData) (f : GeoJsonFeature)
    (r : HistoricalRegime) :
    (countryColorMap h f.id = some r →
      onFeatureClick h f = { regime := some r, areaName := some f.name }) ∧
    (countryColorMap h f.id = none →
      onFeatureClick h f = { regime := none, areaName := some f.name }) ∧
    backgroundClick = { regime := none, areaName := some "Ocean" } := by
  refine ⟨?_, ?_, rfl⟩
  · intro hr; simp [onFeatureClick, hr]
  · intro hr; simp [onFeatureClick, hr]

/-- Witness for C7 on a concrete snapshot: the feature `FRA` is owned, the
feature `EGY` is unowned. -/
theorem c7_hit_testing_witness :
    (countryColorMap
        (some ⟨1000, "s", [HistoricalRegime.mk "法兰西王国" "#345678" ["FRA"] []]⟩)
        (GeoJsonFeature.mk "FRA" "France").id
      = some (HistoricalRegime.mk "法兰西王国" "#345678" ["FRA"] []) ∧
      onFeatureClick
        (some ⟨1000, "s", [HistoricalRegime.mk "法兰西王国" "#345678" ["FRA"] []]⟩)
        (GeoJsonFeature.mk "FRA" "France")
      = { regime := some (HistoricalRegime.mk "法兰西王国" "#345678" ["FRA"] [])
          areaName := some "France" }) ∧
    (countryColorMap
        (some ⟨1000, "s", [HistoricalRegime.mk "法兰西王国" "#345678" ["FRA"] []]⟩)
        (GeoJsonFeature.mk "EGY" "Egypt").id = none ∧
      onFeatureClick
        (some ⟨1000, "s", [HistoricalRegime.mk "法兰西王国" "#345678" ["FRA"] []]⟩)
        (GeoJsonFeature.mk "EGY" "Egypt")
      = { regime := none, areaName := some "Egypt" }) :=
  ⟨⟨by decide,
    (c7_hit_testing
      (some ⟨1000, "s", [HistoricalRegime.mk "法兰西王国" "#345678" ["FRA"] []]⟩)
      (GeoJsonFeature.mk "FRA" "France")
      (HistoricalRegime.mk "法兰西王国" "#345678" ["FRA"] [])).1 (by decide)⟩,
   ⟨by decide,
    (c7_hit_testing
      (some ⟨1000, "s", [HistoricalRegime.mk "法兰西王国" "#345678" ["FRA"] []]⟩)
      (GeoJsonFeature.mk "EGY" "Egypt")
      (HistoricalRegime.mk "法兰西王国" "#345678" ["FRA"] [])).2.1 (by decide)⟩⟩

/-- `MediaRecorder.state` as the guards of `VideoGenerator.tsx` read it. -/
inductive RecorderState where
  | inactive
  | recording
deriving DecidableEq

/-- The recording-session state of `VideoGenerator.tsx`: the recorder's
state, a count of finalized/downloaded artifacts, a count of
`stream.getTracks().forEach(track => track.stop())` passes, the accumulated
chunk count (`recordedChunksRef`), and the `isRecording` React state. -/
structure RecState where
  recorder : RecorderState
  artifacts : Nat
  tracksReleased : Nat
  chunks : Nat
  isRecording : Bool
deriving DecidableEq

/-- The `recorder.onstop` handler (`VideoGenerator.tsx` lines 43–60): build
the blob from the accumulated chunks, download it (one artifact), clear the
chunk buffer, clear `isRecording`, and stop every track of the stream. -/
def onstopHandler (s : RecState) : RecState :=
  { s with artifacts := s.artifacts + 1
           chunks := 0
           isRecording := false
           tracksReleased := s.tracksReleased + 1 }

/-- Platform semantics of `mediaRecorder.stop()` on an active recorder: the
recorder becomes inactive and `onstop` fires once. Callers below only invoke
it under the source's `state !== 'inactive'` guard. -/
def recorderStop (s : RecState) : RecState :=
  { onstopHandler s with recorder := RecorderState.inactive }

/-- `handleStopRecording` (lines 79–83): stop the recorder only if it is not
already inactive; otherwise do nothing. -/
def handleStopRecording (s : RecState) : RecState :=
  if s.recorder = RecorderState.recording then recorderStop s else s

/-- The `stream.getVideoTracks()[0].onended` listener (lines 67–71): the
platform's own stop-sharing signal, guarded by the same
`state !== 'inactive'` check and going through the same `recorder.stop()`
path. -/
def onTrackEnded (s : RecState) : RecState :=
  if s.recorder = RecorderState.recording then recorderStop s else s

/-- `handleStartRecording` (lines 28–77): on a granted capture request the
recorder starts and `isRecording` is set; on denial (the `catch` branch)
the state is unchanged apart from a user-visible alert. -/
def handleStartRecording (s : RecState) (granted : Bool) : RecState :=
  if granted then
    { s with recorder := RecorderState.recording, isRecording := true }
  else s

/-- Events a live recording session can observe, in arrival order: a data
chunk, the manual stop button, the platform's external stop-sharing signal. -/
inductive RecEvent where
  | dataChunk
  | manualStop
  | externalEnded
deriving DecidableEq

/-- One event step of the recording session. A chunk arrives only from an
active recorder; both stop paths are the guarded handlers above. -/
def recStep (s : RecState) (ev : RecEvent) : RecState :=
  match ev with
  | RecEvent.dataChunk =>
    if s.recorder = RecorderState.recording then { s with chunks := s.chunks + 1 } else s
  | RecEvent.manualStop => handleStopRecording s
  | RecEvent.externalEnded => onTrackEnded s

/-- An inactive recorder absorbs every further event unchanged. -/
theorem recStep_inactive (s : RecState) (h : s.recorder = RecorderState.inactive)
    (ev : RecEvent) : recStep s ev = s := by
  cases ev <;>
    simp [recStep, handleStopRecording, onTrackEnded, h]

/-- Folding any event list over an inactive state changes nothing. -/
theorem foldl_recStep_inactive (s : RecState)
    (h : s.recorder = RecorderState.inactive) :
    ∀ evs : List RecEvent, evs.foldl recStep s = s := by
  intro evs
  induction evs with
  | nil => rfl
  | cons ev tl ih => rw [List.foldl_cons, recStep_inactive s h ev]; exact ih

/-- Claim C6 — recording single-artifact law: starting from a session with
no artifact yet and a granted `start()`, any sequence of events containing a
stop (manual or external, in any mixture and order) finalizes exactly one
artifact and releases the tracks exactly once, ending inactive with
`isRecording` cleared; the external signal runs the very same guarded
finalize path as manual stop; and `stop()` on an already-inactive recorder
is a no-op. -/
theorem c6_single_artifact (s₀ : RecState)
    (ha : s₀.artifacts = 0) (ht : s₀.tracksReleased = 0)
    (evs : List RecEvent)
    (hstop : RecEvent.manualStop ∈ evs ∨ RecEvent.externalEnded ∈ evs) :
    ((evs.foldl recStep (handleStartRecording s₀ true)).artifacts = 1 ∧
      (evs.foldl recStep (handleStartRecording s₀ true)).tracksReleased = 1 ∧
      (evs.foldl recStep (handleStartRecording s₀ true)).recorder
        = RecorderState.inactive ∧
      (evs.foldl recStep (handleStartRecording s₀ true)).isRecording = false) ∧
    (∀ s : RecState, s.recorder = RecorderState.inactive →
      handleStopRecording s = s) ∧
    (∀ s : RecState, onTrackEnded s = handleStopRecording s) := by
  refine ⟨?_, ?_, fun s => rfl⟩
  · -- run the fold from the started state
    have key : ∀ evs : List RecEvent, ∀ s : RecState,
        s.recorder = RecorderState.recording → s.artifacts = 0 →
        s.tracksReleased = 0 →
        (RecEvent.manualStop ∈ evs ∨ RecEvent.externalEnded ∈ evs) →
        ((evs.foldl recStep s).artifacts = 1 ∧
          (evs.foldl recStep s).tracksReleased = 1 ∧
          (evs.foldl recStep s).recorder = RecorderState.inactive ∧
          (evs.foldl recStep s).isRecording = false) := by
      intro evs
      induction evs with
      | nil => intro s _ _ _ hstop; simp at hstop
      | cons ev tl ih =>
        intro s hrec hza hzt hstop
        cases ev with
        | dataChunk =>
          rw [List.foldl_cons, show recStep s RecEvent.dataChunk
            = { s with chunks := s.chunks + 1 } from by simp [recStep, hrec]]
          refine ih _ hrec hza hzt ?_
          simpa using hstop
        | manualStop =>
          rw [List.foldl_cons, show recStep s RecEvent.manualStop
            = recorderStop s from by simp [recStep, handleStopRecording, hrec]]
          rw [foldl_recStep_inactive _ rfl tl]
          simp [recorderStop, onstopHandler, hza, hzt]
        | externalEnded =>
          rw [List.foldl_cons, show recStep s RecEvent.externalEnded
            = recorderStop s from by simp [recStep, onTrackEnded, hrec]]
          rw [foldl_recStep_inactive _ rfl tl]
          simp [recorderStop, onstopHandler, hza, hzt]
    exact key evs (handleStartRecording s₀ true)
      (by simp [handleStartRecording]) (by simpa [handleStartRecording] using ha)
      (by simpa [handleStartRecording] using ht) hstop
  · intro s h
    simp [handleStopRecording, h]

/-- Witness for C6: a fresh idle session, granted capture, two chunks, a
manual stop, then a racing external end and one more manual stop — still
exactly one artifact and one track release. -/
theorem c6_single_artifact_witness :
    ((RecState.mk RecorderState.inactive 0 0 0 false).artifacts = 0 ∧
      (RecState.mk RecorderState.inactive 0 0 0 false).tracksReleased = 0 ∧
      (RecEvent.manualStop ∈
        [RecEvent.dataChunk, RecEvent.dataChunk, RecEvent.manualStop,
         RecEvent.externalEnded, RecEvent.manualStop] ∨
        RecEvent.externalEnded ∈
        [RecEvent.dataChunk, RecEvent.dataChunk, RecEvent.manualStop,
         RecEvent.externalEnded, RecEvent.manualStop])) ∧
    (([RecEvent.dataChunk, RecEvent.dataChunk, RecEvent.manualStop,
        RecEvent.externalEnded, RecEvent.manualStop].foldl recStep
        (handleStartRecording (RecState.mk RecorderState.inactive 0 0 0 false)
          true)).artifacts = 1 ∧
      ([RecEvent.dataChunk, RecEvent.dataChunk, RecEvent.manualStop,
        RecEvent.externalEnded, RecEvent.manualStop].foldl recStep
        (handleStartRecording (RecState.mk RecorderState.inactive 0 0 0 false)
          true)).tracksReleased = 1 ∧
      ([RecEvent.dataChunk, RecEvent.dataChunk, RecEvent.manualStop,
        RecEvent.externalEnded, RecEvent.manualStop].foldl recStep
        (handleStartRecording (RecState.mk RecorderState.inactive 0 0 0 false)
          true)).recorder = RecorderState.inactive ∧
      ([RecEvent.dataChunk, RecEvent.dataChunk, RecEvent.manualStop,
        RecEvent.externalEnded, RecEvent.manualStop].foldl recStep
        (handleStartRecording (RecState.mk RecorderState.inactive 0 0 0 false)
          true)).isRecording = false) :=
  ⟨⟨by decide, by decide, by decide⟩,
   (c6_single_artifact (RecState.mk RecorderState.inactive 0 0 0 false)
      (by decide) (by decide)
      [RecEvent.dataChunk, RecEvent.dataChunk, RecEvent.manualStop,
       RecEvent.externalEnded, RecEvent.manualStop]
      (by decide)).1⟩

/-- The `App.tsx` component state read and written by `loadData`. -/
structure AppState where
  currentYear : Int
  historicalData : Option HistoricalData
  loading : Bool
  error : Option String
  selectedRegime : Option HistoricalRegime
  selectedAreaName : Option String
deriving DecidableEq

/-- The synchronous prefix of `App.tsx` `loadData` (lines 25–30), everything
executed before the `await fetchHistoricalContext(year)` suspension point:
set loading, clear the error, sync the year, and clear both selection
fields. -/
def loadDataPre (s : AppState) (year : Int) : AppState :=
  { s with loading := true
           error := none
           currentYear := year
           selectedRegime := none
           selectedAreaName := none }

/-- The continuation of `loadData` after the fetch resolves (lines 33–40):
store the snapshot and clear the loading flag. `fetchHistoricalContext`
never rejects (it catches every failure), so the `catch` branch of
`loadData` is unreachable and the success path is the whole behaviour. -/
def loadDataPost (s : AppState) (d : HistoricalData) : AppState :=
  { s with historicalData := some d, loading := false }

/-- `App.tsx` `loadData`: the pre-await mutations, then the awaited fetch,
then the post-await mutations; returns the final component state and the
snapshot cache after the call. -/
def loadData (s : AppState) (year : Int) (cache : Cache)
    (resp : Option HistoricalData) : AppState × Cache :=
  (loadDataPost (loadDataPre s year) (fetchHistoricalContext year cache resp).data,
   (fetchHistoricalContext year cache resp).newCache)

/-- Claim C10 — selection is cleared on year commit: the state in force when
the snapshot fetch is awaited (`loadDataPre`) already has both selection
fields `null`; `loadData` factors through exactly that pre-state; and the
post-fetch state still has both fields `null`, so no selection from a
previous year's snapshot survives the year change, whatever the fetch
returns. -/
theorem c10_selection_cleared (s : AppState) (year : Int) (cache : Cache)
    (resp : Option HistoricalData) :
    (loadDataPre s year).selectedRegime = none ∧
    (loadDataPre s year).selectedAreaName = none ∧
    loadData s year cache resp
      = (loadDataPost (loadDataPre s year)
          (fetchHistoricalContext year cache resp).data,
        (fetchHistoricalContext year cache resp).newCache) ∧
    (loadData s year cache resp).1.selectedRegime = none ∧
    (loadData s year cache resp).1.selectedAreaName = none :=
  ⟨rfl, rfl, rfl, rfl, rfl⟩
